import Mathlib

/-!
# Verification of the session-manager daemon core (login_manager)

A shallow embedding, in Lean 4, of the parts of the Chromium OS
`login_manager` daemon that the specification's claims are about:

* `PolicyKey` (src/policy_key.cc): the owner-key store;
* `DevicePolicyService` (src/device_policy_service.cc): owner-login
  handling, owner-key validation/storage, the serial-number-recovery
  marker file;
* `SessionManagerImpl` (src/session_manager_impl.cc): session lifecycle,
  e-mail validation, the RestartJobWithAuth cookie check, glib-string
  conversion;
* `LivenessCheckerImpl` (src/liveness_checker_impl.cc): the periodic
  browser liveness probe.

Machine bytes are modelled as `Nat`; byte buffers as `List Nat`.
Operations whose C++ original can crash the process (`CHECK`) or run into
undefined behaviour (out-of-bounds reads) return `Option`, with `none`
standing for "the abstract machine has no defined result here".
External capabilities (NSS crypto, the upstart emitter, the user-policy
factory) are modelled as oracle parameters, mirroring the mock seams the
daemon itself uses in its unit tests.
-/

namespace LoginManager

/-! ## Byte-buffer primitives -/

/-- `memcmp(a, b, n) == 0`, defined only when both buffers hold at least
`n` bytes; reading past either buffer is undefined behaviour (`none`).
A zero-length compare is always defined and true. -/
def memcmpEq (a b : List Nat) (n : Nat) : Option Bool :=
  if n ≤ a.length ∧ n ≤ b.length then some (decide (a.take n = b.take n))
  else none

/-! ## PolicyKey (src/policy_key.cc)

State: the key bytes `key_`, plus the `have_checked_disk_` and
`have_replaced_` flags. -/

structure PolicyKey where
  key : List Nat
  haveCheckedDisk : Bool
  haveReplaced : Bool
deriving DecidableEq, Repr

namespace PolicyKey

/-- `PolicyKey::IsPopulated`: `!key_.empty()`. -/
def isPopulated (k : PolicyKey) : Bool := !k.key.isEmpty

/-- `PolicyKey::VEquals` (src/policy_key.cc:42-45):
`(key_.empty() == key_der.empty()) && memcmp(&key_der[0], &key_[0], key_.size()) == 0`.
The `&&` short-circuits, so `memcmp` runs only when the emptiness flags
agree; it then compares `key_.size()` bytes of `key_der`, which is an
out-of-bounds read whenever `key_der` is shorter than `key_` (both
non-empty).  When both are empty the compare has length zero and reads
nothing. -/
def vequals (k : PolicyKey) (key_der : List Nat) : Option Bool :=
  if k.key.isEmpty == key_der.isEmpty then
    memcmpEq key_der k.key k.key.length
  else
    some false

/-- `PolicyKey::Equals` (src/policy_key.cc:37-40): converts the string to
a byte vector (byte-identical) and calls `VEquals`. -/
def equals (k : PolicyKey) (key_der : List Nat) : Option Bool :=
  k.vequals key_der

/-- `PolicyKey::PopulateFromBuffer` (src/policy_key.cc:83-96): fails
unless the disk has been checked and the store is still empty; otherwise
adopts the buffer. -/
def populateFromBuffer (k : PolicyKey) (public_key_der : List Nat) :
    Bool × PolicyKey :=
  if !k.haveCheckedDisk then (false, k)
  else if k.isPopulated then (false, k)
  else (true, { k with key := public_key_der })

/-- `PolicyKey::ClobberCompromisedKey` (src/policy_key.cc:149-158):
`CHECK`-crashes (modelled `none`) unless the disk has been checked and a
key is populated; then unconditionally replaces the key and sets
`have_replaced_`.  Note: the function takes no mitigation state at all. -/
def clobberCompromisedKey (k : PolicyKey) (public_key_der : List Nat) :
    Option (Bool × PolicyKey) :=
  if k.haveCheckedDisk ∧ k.isPopulated then
    some (true, { k with key := public_key_der, haveReplaced := true })
  else
    none

end PolicyKey

/-! ## Protobuf records (login_manager/device_management_backend.pb.h,
login_manager/chrome_device_policy.pb.h)

The daemon treats policy as a serialized `PolicyFetchResponse` envelope
whose `policy_data` field holds a serialized `PolicyData`, whose
`policy_value` in turn holds a serialized `ChromeDeviceSettingsProto`.
We model each serialized field directly by its parsed form wrapped in
`Option`: the outer `Option` is the proto2 `has_*` bit, and for fields
the code parses, an inner `Option` distinguishes bytes that parse from
bytes that do not (`ParseFromString` failure leaves the message in its
cleared/default state, which is also how the code proceeds, since it
ignores the parse results at src/device_policy_service.cc:258,263). -/

/-- `em::ChromeDeviceSettingsProto`, restricted to the fields this code
reads: the user whitelist and the allow-new-users flag. -/
structure ChromeDeviceSettings where
  user_whitelist : List String
  allow_new_users : Option Bool
deriving DecidableEq, Repr

/-- The default (cleared) `ChromeDeviceSettingsProto`. -/
def ChromeDeviceSettings.default : ChromeDeviceSettings :=
  { user_whitelist := [], allow_new_users := none }

/-- `em::PolicyData`, restricted to the fields this code reads. Proto2
getters fall back to defaults (`""`, `false`) when the field is unset. -/
structure PolicyData where
  policy_type : Option String
  request_token : Option String
  username : Option String
  valid_serial_number_missing : Bool
  policy_value : Option ChromeDeviceSettings
deriving DecidableEq, Repr

/-- The default (cleared) `PolicyData`. -/
def PolicyData.default : PolicyData :=
  { policy_type := none, request_token := none, username := none,
    valid_serial_number_missing := false, policy_value := none }

/-- `policy_data.request_token().empty()` negated: the getter returns
`""` when the field is unset. -/
def PolicyData.requestTokenNonempty (pd : PolicyData) : Bool :=
  pd.request_token.getD "" ≠ ""

/-- `em::PolicyFetchResponse`: the stored envelope.  `policy_data` is
`some (some pd)` when present and parseable, `some none` when present
but unparseable, `none` when absent. -/
structure PolicyFetchResponse where
  policy_data : Option (Option PolicyData)
  policy_data_signature : Option (List Nat)
  new_public_key : Option (List Nat)
deriving DecidableEq, Repr

/-- `em::PolicyFetchResponse()`: the default-constructed empty record
used to wipe policy at src/device_policy_service.cc:111. -/
def PolicyFetchResponse.empty : PolicyFetchResponse :=
  { policy_data := none, policy_data_signature := none, new_public_key := none }

/-! ## DevicePolicyService (src/device_policy_service.cc) -/

/-- `DevicePolicyService::kDevicePolicyType`. -/
def kDevicePolicyType : String := "google/chromeos/device"

/-- The service state the modelled operations touch: the owner-key store,
the in-memory policy record held by the `PolicyStore`, and the
mitigator's in-progress flag (`mitigator_->Mitigating()`). -/
structure DPS where
  key : PolicyKey
  record : PolicyFetchResponse
  mitigating : Bool
deriving DecidableEq, Repr

/-- `DevicePolicyService::Mitigating` (src/device_policy_service.cc:144). -/
def DPS.Mitigating (st : DPS) : Bool := st.mitigating

/-- `DevicePolicyService::KeyMissing` (src/device_policy_service.cc:140). -/
def DPS.KeyMissing (st : DPS) : Bool :=
  st.key.haveCheckedDisk && !st.key.isPopulated

/-- Observable calls the device-policy service makes on its key store and
policy store, in program order. -/
inductive DPEvent
  | setRecord (r : PolicyFetchResponse)
  | clobberKey
  | populateKey
  | persistKey
  | persistPolicy
deriving DecidableEq, Repr

/-- `DevicePolicyService::StoreOwnerProperties`
(src/device_policy_service.cc:251-323).  `signature` is the oracle for
`nss_->Sign` (`none` = signing failed).  Returns `none` when the
`key()->Equals` comparison hits the out-of-bounds read in `VEquals`;
otherwise `(ok, new state, store events)`. -/
def storeOwnerProperties (signature : Option (List Nat)) (current_user : String)
    (st : DPS) : Option (Bool × DPS × List DPEvent) :=
  -- em::PolicyData poldata; if (policy.has_policy_data()) poldata.ParseFromString(...);
  let poldata0 : PolicyData :=
    match st.record.policy_data with
    | some (some pd) => pd
    | _ => PolicyData.default
  -- policy-type check: reuse the decoded settings only for device policy.
  let poldata1 : PolicyData :=
    if poldata0.policy_type = some kDevicePolicyType then poldata0
    else { poldata0 with policy_type := some kDevicePolicyType }
  let polval0 : ChromeDeviceSettings :=
    if poldata0.policy_type = some kDevicePolicyType then
      poldata0.policy_value.getD ChromeDeviceSettings.default
    else ChromeDeviceSettings.default
  let on_list : Bool := polval0.user_whitelist.contains current_user
  -- if (poldata.has_username() && poldata.username() == current_user &&
  --     on_list && key()->Equals(policy.new_public_key())) return true;
  let noopCheck : Option Bool :=
    if poldata1.username = some current_user ∧ on_list then
      st.key.equals (st.record.new_public_key.getD [])
    else some false
  match noopCheck with
  | none => none
  | some true => some (true, st, [])
  | some false =>
    let polval1 : ChromeDeviceSettings :=
      if on_list then polval0
      else { polval0 with
             user_whitelist := polval0.user_whitelist ++ [current_user],
             allow_new_users :=
               if polval0.allow_new_users.isNone then some true
               else polval0.allow_new_users }
    let poldata2 : PolicyData :=
      { poldata1 with username := some current_user,
                      policy_value := some polval1 }
    match signature with
    | none => some (false, st, [])
    | some sig =>
      -- new_policy.CheckTypeAndMergeFrom(policy); then override the three fields.
      let new_policy : PolicyFetchResponse :=
        { st.record with
          policy_data := some (some poldata2),
          policy_data_signature := some sig,
          new_public_key := some st.key.key }
      some (true, { st with record := new_policy },
            [DPEvent.setRecord new_policy])

/-- Tail of `DevicePolicyService::ValidateAndStoreOwnerKey`
(src/device_policy_service.cc:114-120): store owner properties, then on
success schedule the key and policy persists; the function returns true
either way. -/
def vasokFinish (signature : Option (List Nat)) (current_user : String)
    (st : DPS) (tr : List DPEvent) : Option (Bool × DPS × List DPEvent) :=
  match storeOwnerProperties signature current_user st with
  | none => none
  | some (true, st', tr') =>
    some (true, st', tr ++ tr' ++ [DPEvent.persistKey, DPEvent.persistPolicy])
  | some (false, st', tr') => some (true, st', tr ++ tr')

/-- `DevicePolicyService::ValidateAndStoreOwnerKey`
(src/device_policy_service.cc:86-121).  `owner_key_in_slot` is the oracle
for `GetOwnerKeyForGivenUser` (whether `nss_->GetPrivateKeyForUser` finds
the private half of `buf` in the user's slot); `signature` the oracle for
`nss_->Sign` inside `StoreOwnerProperties`. -/
def validateAndStoreOwnerKey (owner_key_in_slot : Bool)
    (signature : Option (List Nat)) (current_user : String)
    (buf : List Nat) (st : DPS) : Option (Bool × DPS × List DPEvent) :=
  let pub_key := buf  -- NssUtil::BlobFromBuffer: a byte-identical copy
  if !owner_key_in_slot then some (false, st, [])
  else if st.mitigating then
    -- Mitigating: clobber if the public key is still present, else populate.
    if st.key.isPopulated then
      match st.key.clobberCompromisedKey pub_key with
      | none => none
      | some (ok, k') =>
        if ok then vasokFinish signature current_user { st with key := k' }
                     [DPEvent.clobberKey]
        else some (false, { st with key := k' }, [DPEvent.clobberKey])
    else
      let (ok, k') := st.key.populateFromBuffer pub_key
      if ok then vasokFinish signature current_user { st with key := k' }
                   [DPEvent.populateKey]
      else some (false, { st with key := k' }, [DPEvent.populateKey])
  else
    -- Not mitigating, so regular key population should work.
    let (ok, k') := st.key.populateFromBuffer pub_key
    if !ok then some (false, { st with key := k' }, [DPEvent.populateKey])
    else
      -- Clear policy in case we're re-establishing ownership.
      vasokFinish signature current_user
        { st with key := k', record := PolicyFetchResponse.empty }
        [DPEvent.populateKey, DPEvent.setRecord PolicyFetchResponse.empty]

/-! ## Serial-number-recovery marker (src/device_policy_service.cc:353-386) -/

/-- The slice of the filesystem these operations touch: the size of the
on-disk device-policy file (`none` when `GetFileSize` fails, i.e. the
file is absent) and whether the serial-recovery marker file exists.
File writes and deletes are modelled as succeeding. -/
structure Fs where
  policyFileSize : Option Nat
  markerExists : Bool
deriving DecidableEq, Repr

/-- The `recovery_needed` computation of
`DevicePolicyService::UpdateSerialNumberRecoveryFlagFile`. -/
def recoveryNeeded (fs : Fs) (rec : PolicyFetchResponse) : Bool :=
  let fromFile : Bool :=
    match fs.policyFileSize with
    | none => true
    | some n => n == 0
  let fromPolicy : Bool :=
    match rec.policy_data with
    | some (some pd) => pd.requestTokenNonempty && pd.valid_serial_number_missing
    | _ => false
  fromFile || fromPolicy

/-- `DevicePolicyService::UpdateSerialNumberRecoveryFlagFile`: write the
zero-byte flag file when recovery is needed, delete it otherwise. -/
def updateSerialNumberRecoveryFlagFile (fs : Fs) (rec : PolicyFetchResponse) :
    Fs :=
  { fs with markerExists := recoveryNeeded fs rec }

/-- Modelled from the spec: `PolicyService::Store` (the base class, whose
source file is not under src/).  Per §4.3, on success the in-memory
policy record is replaced by the parsed envelope and persistence is
deferred; on failure the record is unchanged.  Envelope parsing,
key-flag handling and signature verification are abstracted into the
`accepted` oracle. -/
def basePolicyServiceStore (accepted : Bool) (envelope : PolicyFetchResponse)
    (current : PolicyFetchResponse) : Bool × PolicyFetchResponse :=
  if accepted then (true, envelope) else (false, current)

/-- `DevicePolicyService::Store` (src/device_policy_service.cc:162-176):
run the base-class store; if it succeeded, refresh the serial-recovery
marker (against the now-updated record) and drop the settings cache. -/
def devicePolicyStore (accepted : Bool) (envelope : PolicyFetchResponse)
    (fs : Fs) (rec : PolicyFetchResponse) :
    Bool × Fs × PolicyFetchResponse :=
  let (result, rec') := basePolicyServiceStore accepted envelope rec
  if result then (true, updateSerialNumberRecoveryFlagFile fs rec', rec')
  else (false, fs, rec')

/-- `DevicePolicyService::Initialize` (src/device_policy_service.cc:148-160),
restricted to the store side: `store()->LoadOrCreate()` yields the
record `loaded` (per §4.2 it succeeds even with no file, producing the
empty record), then the serial-recovery marker is refreshed. -/
def devicePolicyInitialize (loaded : PolicyFetchResponse) (fs : Fs) :
    Fs × PolicyFetchResponse :=
  (updateSerialNumberRecoveryFlagFile fs loaded, loaded)

/-! ## SessionManagerImpl (src/session_manager_impl.cc) -/

/-- `kMaxGCharBufferSize` (src/session_manager_impl.cc:63). -/
def kMaxGCharBufferSize : Nat := 200

/-- `SessionManagerImpl::GCharToString` (src/session_manager_impl.cc:648-652):
```
char buffer[kMaxGCharBufferSize + 1];
int len = snprintf(buffer, sizeof(buffer), "%s", str);
return std::string(buffer, len);
```
`snprintf` fills the 201-byte buffer with the first 200 characters plus a
NUL terminator, but returns `strlen(str)` (the length that would have
been written).  `std::string(buffer, len)` then reads `len` bytes:
* `len ≤ 200`: the buffer holds the whole string — result is `str`;
* `len = 201`: exactly the buffer — result is the 200-byte prefix plus
  the NUL terminator;
* `len > 201`: reads past the end of `buffer` — undefined (`none`). -/
def gCharToString (s : String) : Option String :=
  let len := s.length
  if len ≤ kMaxGCharBufferSize then some s
  else if len = kMaxGCharBufferSize + 1 then
    some ((s.take kMaxGCharBufferSize).push (Char.ofNat 0))
  else none

/-- `StringToLowerASCII` (base/string_util.h): map `A`-`Z` to lower case,
leave every other byte alone. -/
def toLowerAsciiChar (c : Char) : Char :=
  if 'A' ≤ c ∧ c ≤ 'Z' then Char.ofNat (c.toNat + 32) else c

/-- `StringToLowerASCII` on a whole string: the character-wise map. -/
def stringToLowerAscii (s : String) : String :=
  String.mk (s.data.map toLowerAsciiChar)

/-- `kLegalCharacters` (src/session_manager_impl.cc:67-70). -/
def kLegalCharacters : List Char :=
  "abcdefghijklmnopqrstuvwxyzABCDEFGHIJKLMNOPQRSTUVWXYZ.@1234567890-+_".toList

/-- `SessionManagerImpl::ValidateEmail` (src/session_manager_impl.cc:662-676):
reject if any character is outside `kLegalCharacters`
(`find_first_not_of != npos`), if there is no `@` (`find == npos`), or if
there is a second `@` after the first (`find(sep, at+1) != npos`). -/
def validateEmail (email_address : String) : Bool :=
  let cs := email_address.toList
  if cs.any (fun c => !(kLegalCharacters.contains c)) then false
  else
    match cs.indexOf? '@' with
    | none => false                            -- it has NO @.
    | some at_idx =>                           -- it has more than one @.
      !((cs.drop (at_idx + 1)).contains '@')

/-- `kDemoUser` (src/session_manager_impl.cc:43). -/
def kDemoUser : String := "demouser@"

/-- The session-state strings (src/session_manager_impl.cc:45-47). -/
def kStarted : String := "started"

def kStopping : String := "stopping"

def kStopped : String := "stopped"

/-- `SessionManagerImpl::UserSession` (src/session_manager_impl.cc:121-141),
minus the NSS slot and policy-service handles (opaque resources). -/
structure UserSession where
  username : String
  userhash : String
  isIncognito : Bool
deriving DecidableEq, Repr

/-- The mutable state of `SessionManagerImpl` that the modelled methods
read or write.  `userSessions` is the `user_sessions_` map as an
association list keyed by the normalized (lowercased) e-mail;
`loggedInFlag` stands for the `kLoggedInFlag` marker file. -/
structure SMState where
  sessionStarted : Bool
  sessionStopping : Bool
  screenLocked : Bool
  userSessions : List (String × UserSession)
  loggedInFlag : Bool
deriving DecidableEq, Repr

/-- The external collaborators `StartSession` consults, modelled as
(deterministic) oracles: the guest-user sentinel from
`chromeos::cryptohome::home::kGuestUserName` (external to this repo),
`SanitizeUserName`, and the success/failure of the user-policy factory,
of `nss_->OpenUserDB`, of `CheckAndHandleOwnerLogin`, and of the upstart
`start-user-session` signal emission. -/
structure SMEnv where
  guestUserName : String
  sanitizeUserName : String → String
  userPolicyOk : String → Bool
  nssSlotOk : String → Bool
  ownerLoginOk : String → Bool
  emitStartSessionOk : String → Bool
  keyMissing : Bool
  mitigating : Bool

/-- The error kinds `StartSession` can report. -/
inductive StartErr
  | invalidEmail
  | sessionExists
  | policyInitFail
  | noUserNssdb
  | ownerLogin
  | emitFailed
deriving DecidableEq, Repr

/-- `SessionManagerImpl::AllSessionsAreIncognito`
(src/session_manager_impl.cc:678-687): count the incognito sessions and
compare against the map size. -/
def allSessionsAreIncognito (st : SMState) : Bool :=
  (st.userSessions.countP (fun p => p.2.isIncognito)) == st.userSessions.length

/-- `SessionManagerImpl::StartSession` (src/session_manager_impl.cc:274-356).
Outer `none` is the undefined behaviour inherited from `GCharToString`
on over-long inputs; otherwise the result is the post-state, the
`OUT_done` flag, and the error reported, if any.  The `user_sessions_`
insertion `user_sessions_[email_string] = ...` is a plain cons: the
`count() > 0` guard above it ensures the key is absent.  External side
effects with no bearing on this state (UMA metrics, the
`SessionStateChanged` broadcast, `RunKeyGenerator`) are not recorded. -/
def startSession (env : SMEnv) (st : SMState) (email_address : String) :
    Option (SMState × Bool × Option StartErr) :=
  match gCharToString email_address with
  | none => none
  | some s =>
    let email_string := stringToLowerAscii s
    let is_incognito : Bool :=
      email_string == env.guestUserName || email_string == kDemoUser
    if !is_incognito && !validateEmail email_string then
      some (st, false, some StartErr.invalidEmail)
    else if (st.userSessions.lookup email_string).isSome then
      some (st, false, some StartErr.sessionExists)
    -- CreateUserSession (src/session_manager_impl.cc:696-722)
    else if !env.userPolicyOk email_string then
      some (st, false, some StartErr.policyInitFail)
    else if !env.nssSlotOk email_string then
      some (st, false, some StartErr.noUserNssdb)
    else if !env.ownerLoginOk email_string then
      some (st, false, some StartErr.ownerLogin)
    else if !env.emitStartSessionOk email_string then
      some (st, false, some StartErr.emitFailed)
    else
      let sess : UserSession :=
        { username := email_string,
          userhash := env.sanitizeUserName email_string,
          isIncognito := is_incognito }
      some ({ st with
              sessionStarted := true,
              userSessions := (email_string, sess) :: st.userSessions,
              loggedInFlag := true },
            true, none)

/-- Calls `StopSession` makes on its collaborators. -/
inductive SMAction
  | scheduleShutdown
deriving DecidableEq, Repr

/-- `SessionManagerImpl::StopSession` (src/session_manager_impl.cc:358-372):
`manager_->ScheduleShutdown()` and return true — the state-resetting
lines are commented out in the source, so the state is untouched. -/
def stopSession (st : SMState) : SMState × List SMAction × Bool :=
  (st, [SMAction.scheduleShutdown], true)

/-- `SessionManagerImpl::RetrieveSessionState`
(src/session_manager_impl.cc:457-463). -/
def retrieveSessionState (st : SMState) : String :=
  if !st.sessionStarted then kStopped
  else if st.sessionStopping then kStopping
  else kStarted

/-- `SessionManagerImpl::LockScreen` (src/session_manager_impl.cc:481-497). -/
def lockScreen (st : SMState) : SMState :=
  if !st.sessionStarted then st
  else if allSessionsAreIncognito st then st
  else if !st.screenLocked then { st with screenLocked := true }
  else st

/-- `SessionManagerImpl::HandleLockScreenDismissed`
(src/session_manager_impl.cc:505-510). -/
def handleLockScreenDismissed (st : SMState) : SMState :=
  { st with screenLocked := false }

/-- `SessionManagerImpl::AnnounceSessionStoppingIfNeeded`
(src/session_manager_impl.cc:181-191). -/
def announceSessionStoppingIfNeeded (st : SMState) : SMState :=
  if st.sessionStarted then { st with sessionStopping := true } else st

/-- The state-touching remote methods and internal notifications of
`SessionManagerImpl`, used to quantify over daemon lifetimes.
`restartJob` carries the oracle for `manager_->IsBrowser(pid)`;
on a browser pid it starts a guest session
(src/session_manager_impl.cc:540). -/
inductive SMOp
  | startSession (email : String)
  | stopSession
  | lockScreen
  | handleLockScreenShown
  | handleLockScreenDismissed
  | announceSessionStoppingIfNeeded
  | restartJob (pidIsBrowser : Bool)
deriving DecidableEq, Repr

/-- One step of the session-manager state machine; `none` propagates the
undefined `GCharToString` conversions. `handleLockScreenShown` only
broadcasts a signal. -/
def stepSM (env : SMEnv) (st : SMState) : SMOp → Option SMState
  | SMOp.startSession email => (startSession env st email).map (fun r => r.1)
  | SMOp.stopSession => some (stopSession st).1
  | SMOp.lockScreen => some (lockScreen st)
  | SMOp.handleLockScreenShown => some st
  | SMOp.handleLockScreenDismissed => some (handleLockScreenDismissed st)
  | SMOp.announceSessionStoppingIfNeeded =>
    some (announceSessionStoppingIfNeeded st)
  | SMOp.restartJob pidIsBrowser =>
    if !pidIsBrowser then some st
    else (startSession env st env.guestUserName).map (fun r => r.1)

/-- Run a sequence of operations. -/
def runSM (env : SMEnv) : List SMOp → SMState → Option SMState
  | [], st => some st
  | op :: ops, st => (stepSM env st op).bind (runSM env ops)

/-! ## The RestartJobWithAuth cookie (src/session_manager_impl.cc) -/

/-- `kCookieEntropyBytes` (src/session_manager_impl.cc:56): the daemon
generates a 16-byte random cookie at start. -/
def kCookieEntropyBytes : Nat := 16

/-- `SessionManagerImpl::IsValidCookie` (src/session_manager_impl.cc:689-694):
```
size_t len = strlen(cookie) < cookie_.size() ? strlen(cookie) : cookie_.size();
return chromeos::SafeMemcmp(cookie, cookie_.data(), len) == 0;
```
`daemon_cookie` is `cookie_`; `cookie` is the caller's NUL-terminated
string, so its model is its byte list and `strlen` its length.
`SafeMemcmp` is a constant-time `memcmp`: zero iff the first `len` bytes
agree. -/
def isValidCookie (daemon_cookie cookie : List Nat) : Bool :=
  let len := min cookie.length daemon_cookie.length
  cookie.take len == daemon_cookie.take len

/-- The outcome of `RestartJobWithAuth`'s authentication gate
(src/session_manager_impl.cc:545-559): `illegalService` means the call
fails with `CHROMEOS_LOGIN_ERROR_ILLEGAL_SERVICE` and no child is
touched; `proceeded` means the call falls through to `RestartJob`. -/
inductive RestartAuthOutcome
  | illegalService
  | proceeded
deriving DecidableEq, Repr

/-- The cookie gate of `SessionManagerImpl::RestartJobWithAuth`. -/
def restartJobWithAuthGate (daemon_cookie cookie : List Nat) :
    RestartAuthOutcome :=
  if !isValidCookie daemon_cookie cookie then RestartAuthOutcome.illegalService
  else RestartAuthOutcome.proceeded

/-! ## LivenessCheckerImpl (src/liveness_checker_impl.cc) -/

/-- The checker's state: the `outstanding_liveness_ping_` flag, whether a
tick callback is scheduled (the `liveness_check_` cancelable callback is
pending and not cancelled), and the `enable_aborting_` configuration
constant. -/
structure LivenessState where
  outstandingLivenessPing : Bool
  scheduled : Bool
  enableAborting : Bool
deriving DecidableEq, Repr

namespace Liveness

/-- `LivenessCheckerImpl::Stop` (src/liveness_checker_impl.cc:61-64):
invalidate weak pointers and cancel the pending callback.  The
`outstanding_liveness_ping_` flag is not touched. -/
def stop (s : LivenessState) : LivenessState := { s with scheduled := false }

/-- `LivenessCheckerImpl::Start` (src/liveness_checker_impl.cc:43-54):
`Stop()`, clear the outstanding-ping flag, schedule a tick. -/
def start (s : LivenessState) : LivenessState :=
  { stop s with outstandingLivenessPing := false, scheduled := true }

/-- `LivenessCheckerImpl::HandleLivenessConfirmed`
(src/liveness_checker_impl.cc:56-59). -/
def handleLivenessConfirmed (s : LivenessState) : LivenessState :=
  { s with outstandingLivenessPing := false }

/-- `LivenessCheckerImpl::IsRunning` (src/liveness_checker_impl.cc:66-68). -/
def isRunning (s : LivenessState) : Bool := s.scheduled

/-- `LivenessCheckerImpl::CheckAndSendLivenessPing`
(src/liveness_checker_impl.cc:70-94), the body of the scheduled tick:
on an un-acked ping with aborting enabled, abort the browser and
`Stop()`; otherwise send a fresh ping and reschedule. -/
def checkAndSendLivenessPing (s : LivenessState) : LivenessState :=
  if s.outstandingLivenessPing && s.enableAborting then stop s
  else { s with outstandingLivenessPing := true, scheduled := true }

/-- A tick of the event loop: the scheduled callback, if any, fires.  A
cancelled (or never-scheduled) callback does not run. -/
def tick (s : LivenessState) : LivenessState :=
  if s.scheduled then checkAndSendLivenessPing s else s

/-- The checker's entry points, for quantifying over histories. -/
inductive Op
  | start
  | stop
  | tick
  | handleLivenessConfirmed
deriving DecidableEq, Repr

/-- Step of the liveness state machine. -/
def step (s : LivenessState) : Op → LivenessState
  | Op.start => start s
  | Op.stop => stop s
  | Op.tick => tick s
  | Op.handleLivenessConfirmed => handleLivenessConfirmed s

/-- Run a sequence of entry points. -/
def run : List Op → LivenessState → LivenessState
  | [], s => s
  | op :: ops, s => run ops (step s op)

end Liveness

/-! ## Theorems -/

/-- C1: the claim says `RestartJobWithAuth` fails with `IllegalService`
for every cookie that is not byte-for-byte equal to the 16-byte process
cookie.  On the code this is false: `IsValidCookie` compares only the
first `min(strlen(cookie), cookie_.size())` bytes, so the empty cookie
(and every proper prefix of the process cookie) is accepted and the call
proceeds to `RestartJob`.  Evaluated here at a concrete 16-byte process
cookie with the empty cookie and with a 4-byte prefix. -/
theorem c1_prefix_cookie_bypasses_auth :
    isValidCookie [1, 2, 3, 4, 5, 6, 7, 8, 9, 10, 11, 12, 13, 14, 15, 16]
      [] = true ∧
    restartJobWithAuthGate [1, 2, 3, 4, 5, 6, 7, 8, 9, 10, 11, 12, 13, 14, 15, 16]
      [] = RestartAuthOutcome.proceeded ∧
    isValidCookie [1, 2, 3, 4, 5, 6, 7, 8, 9, 10, 11, 12, 13, 14, 15, 16]
      [1, 2, 3, 4] = true ∧
    restartJobWithAuthGate [1, 2, 3, 4, 5, 6, 7, 8, 9, 10, 11, 12, 13, 14, 15, 16]
      [1, 2, 3, 4] = RestartAuthOutcome.proceeded ∧
    ([] : List Nat) ≠ [1, 2, 3, 4, 5, 6, 7, 8, 9, 10, 11, 12, 13, 14, 15, 16] ∧
    ([1, 2, 3, 4] : List Nat) ≠ [1, 2, 3, 4, 5, 6, 7, 8, 9, 10, 11, 12, 13, 14, 15, 16] ∧
    List.length [1, 2, 3, 4, 5, 6, 7, 8, 9, 10, 11, 12, 13, 14, 15, 16] =
      kCookieEntropyBytes := by
  decide

set_option maxRecDepth 8000

/-- C10: the claim says every string argument is truncated to its first
200 bytes.  On the code this is false: `GCharToString` constructs
`std::string(buffer, len)` with `len = snprintf(...) = strlen(str)`, so a
201-byte input yields the 200-byte prefix *plus the NUL terminator* (a
201-byte string, which is what the session table is then keyed by), a
200-byte input passes through unchanged, and anything longer than 201
bytes reads past the stack buffer (undefined).  Evaluated at 201 and 202
copies of `a`. -/
theorem c10_gchar_to_string_not_truncated_to_200 :
    gCharToString (String.mk (List.replicate 201 'a')) =
      some (String.mk (List.replicate 200 'a' ++ [Char.ofNat 0])) ∧
    String.mk (List.replicate 200 'a' ++ [Char.ofNat 0]) ≠
      String.mk (List.replicate 200 'a') ∧
    (String.mk (List.replicate 200 'a' ++ [Char.ofNat 0])).length = 201 ∧
    gCharToString (String.mk (List.replicate 202 'a')) = none ∧
    gCharToString (String.mk (List.replicate 200 'a')) =
      some (String.mk (List.replicate 200 'a')) := by
  refine ⟨?_, by decide, by decide, by decide, by decide⟩
  decide

/-- C4, counterexample: the claim says `VEquals` returns true iff the
argument equals the stored key.  With stored key `[1]`, the argument
`[1, 2]` — a proper extension — compares equal, because `memcmp` only
looks at `key_.size()` bytes. -/
theorem c4_vequals_extension_compares_equal :
    PolicyKey.vequals { key := [1], haveCheckedDisk := true, haveReplaced := false }
      [1, 2] = some true ∧
    ([1, 2] : List Nat) ≠ [1] := by
  decide

/-- C4, amended: `VEquals` returns true iff the emptiness flags agree and
the first `key_.size()` bytes of the argument equal the stored key — so
both empty compares equal (with a zero-length, in-bounds `memcmp`), and a
proper extension of the stored key also compares equal; when both sides
are non-empty and the argument is shorter than the stored key, the
`memcmp` reads out of bounds and the result is undefined. -/
theorem c4_vequals_prefix_semantics (k : PolicyKey) (der : List Nat) :
    (k.vequals der = some true ↔
      ((k.key = [] ∧ der = []) ∨
       (k.key ≠ [] ∧ der ≠ [] ∧ k.key.length ≤ der.length ∧
        der.take k.key.length = k.key))) ∧
    (k.vequals der = none ↔
      (k.key ≠ [] ∧ der ≠ [] ∧ der.length < k.key.length)) := by
  obtain ⟨kk, hc, hr⟩ := k
  simp only [PolicyKey.vequals, memcmpEq]
  dsimp only
  cases kk with
  | nil =>
    cases der with
    | nil => simp
    | cons b bs => simp
  | cons a as =>
    cases der with
    | nil => simp
    | cons b bs =>
      rw [if_pos (show (((a :: as).isEmpty == (b :: bs).isEmpty)) = true by simp)]
      by_cases hle : (a :: as).length ≤ (b :: bs).length
      · rw [if_pos ⟨hle, Nat.le_refl _⟩, List.take_length]
        constructor
        · constructor
          · intro h
            refine Or.inr ⟨by simp, by simp, hle, ?_⟩
            simpa using h
          · rintro (⟨h, _⟩ | ⟨_, _, _, htake⟩)
            · exact absurd h (by simp)
            · rw [List.length_cons, List.take_succ_cons] at htake
              injection htake with h1 h2
              simp [h1, h2]
        · constructor
          · intro h; simp at h
          · rintro ⟨_, _, hlt⟩
            exfalso
            simp only [List.length_cons] at hle hlt
            omega
      · rw [if_neg (fun hcon => hle hcon.1)]
        constructor
        · constructor
          · intro h; simp at h
          · rintro (⟨h, _⟩ | ⟨_, _, hle', _⟩)
            · exact absurd h (by simp)
            · exact absurd hle' hle
        · constructor
          · intro _
            refine ⟨by simp, by simp, ?_⟩
            simp only [List.length_cons] at hle ⊢
            omega
          · intro _; rfl

/-- C3, counterexample: the claim says that after `Stop()` the
outstanding-ping flag is false.  Run Start, let the tick fire (it emits a
ping, setting the flag), then Stop: the callback is cancelled but
`outstanding_liveness_ping_` is still true, because `Stop` never touches
it. -/
theorem c3_stop_leaves_outstanding_ping_set :
    (Liveness.run [Liveness.Op.start, Liveness.Op.tick, Liveness.Op.stop]
      { outstandingLivenessPing := false, scheduled := false,
        enableAborting := false }) =
      { outstandingLivenessPing := true, scheduled := false,
        enableAborting := false } := by
  decide

/-- C3, amended: after `Stop()` no tick callback remains scheduled
(`IsRunning` is false) and no sequence of operations that does not
include a `Start` can ever schedule one again — in particular no further
ping is emitted while stopped; but `Stop` leaves the outstanding-ping
flag exactly as it was, and the flag is only cleared by the next `Start`
(which clears it before scheduling) or by `HandleLivenessConfirmed`. -/
theorem c3_stop_cancels_tick_but_keeps_flag (s : LivenessState)
    (ops : List Liveness.Op) (h : Liveness.Op.start ∉ ops) :
    (Liveness.stop s).scheduled = false ∧
    Liveness.isRunning (Liveness.stop s) = false ∧
    (Liveness.stop s).outstandingLivenessPing = s.outstandingLivenessPing ∧
    (Liveness.start s).outstandingLivenessPing = false ∧
    (Liveness.run ops (Liveness.stop s)).scheduled = false := by
  refine ⟨rfl, rfl, rfl, rfl, ?_⟩
  have key : ∀ (t : LivenessState) (op : Liveness.Op), t.scheduled = false →
      op ≠ Liveness.Op.start → (Liveness.step t op).scheduled = false := by
    intro t op hts hop
    cases op with
    | start => exact absurd rfl hop
    | stop => rfl
    | tick => simp [Liveness.step, Liveness.tick, hts]
    | handleLivenessConfirmed =>
      simp [Liveness.step, Liveness.handleLivenessConfirmed, hts]
  have gen : ∀ (l : List Liveness.Op) (t : LivenessState), t.scheduled = false →
      Liveness.Op.start ∉ l → (Liveness.run l t).scheduled = false := by
    intro l
    induction l with
    | nil => intro t ht _; exact ht
    | cons op ops ih =>
      intro t ht hmem
      simp only [List.mem_cons, not_or] at hmem
      exact ih _ (key t op ht (fun he => hmem.1 he.symm)) hmem.2
  exact gen ops (Liveness.stop s) rfl h

/-- A concrete liveness state with a ping in flight, for the C3 witness. -/
def livenessPending : LivenessState :=
  { outstandingLivenessPing := true, scheduled := true, enableAborting := true }

/-- A concrete Start-free operation sequence, for the C3 witness. -/
def livenessOpsNoStart : List Liveness.Op :=
  [Liveness.Op.tick, Liveness.Op.handleLivenessConfirmed, Liveness.Op.stop]

/-- C3, witness for the amended theorem: a concrete run with a pending
ping, stopped, then ticked and confirmed while stopped. -/
theorem c3_stop_cancels_tick_but_keeps_flag_witness :
    (Liveness.Op.start ∉ livenessOpsNoStart) ∧
    ((Liveness.stop livenessPending).scheduled = false ∧
     Liveness.isRunning (Liveness.stop livenessPending) = false ∧
     (Liveness.stop livenessPending).outstandingLivenessPing =
       livenessPending.outstandingLivenessPing ∧
     (Liveness.start livenessPending).outstandingLivenessPing = false ∧
     (Liveness.run livenessOpsNoStart
       (Liveness.stop livenessPending)).scheduled = false) :=
  ⟨by decide,
   c3_stop_cancels_tick_but_keeps_flag livenessPending livenessOpsNoStart
     (by decide)⟩

/-- `StoreOwnerProperties` never touches the key store: its trace is
either empty or a single policy-record write. -/
theorem storeOwnerProperties_trace (sig : Option (List Nat)) (user : String)
    (st : DPS) (b : Bool) (st' : DPS) (tr : List DPEvent)
    (h : storeOwnerProperties sig user st = some (b, st', tr)) :
    tr = [] ∨ ∃ r, tr = [DPEvent.setRecord r] := by
  unfold storeOwnerProperties at h
  simp only [] at h
  repeat' split at h
  all_goals try exact Option.noConfusion h
  all_goals injection h with h'
  all_goals injection h' with _ h''
  all_goals injection h'' with _ htr
  all_goals
    first
    | exact Or.inl htr.symm
    | exact Or.inr ⟨_, htr.symm⟩

/-- `vasokFinish` adds only persist events to the `StoreOwnerProperties`
trace: it introduces no key-store clobber. -/
theorem vasokFinish_no_clobber (sig : Option (List Nat)) (user : String)
    (st : DPS) (tr : List DPEvent) (hin : DPEvent.clobberKey ∉ tr)
    (b : Bool) (st' : DPS) (tr' : List DPEvent)
    (h : vasokFinish sig user st tr = some (b, st', tr')) :
    DPEvent.clobberKey ∉ tr' := by
  unfold vasokFinish at h
  split at h
  · exact absurd h (by simp)
  · rename_i b₀ st₀ tr₀ heq
    injection h with h'
    injection h' with _ h''
    injection h'' with _ htr
    subst htr
    have := storeOwnerProperties_trace sig user st true st₀ tr₀ heq
    intro hmem
    rcases List.mem_append.mp hmem with hmem | hmem
    · rcases List.mem_append.mp hmem with hmem | hmem
      · exact hin hmem
      · rcases this with rfl | ⟨r, rfl⟩
        · simp at hmem
        · simp at hmem
    · simp at hmem
  · rename_i b₀ st₀ tr₀ heq
    injection h with h'
    injection h' with _ h''
    injection h'' with _ htr
    subst htr
    have := storeOwnerProperties_trace sig user st false st₀ tr₀ heq
    intro hmem
    rcases List.mem_append.mp hmem with hmem | hmem
    · exact hin hmem
    · rcases this with rfl | ⟨r, rfl⟩
      · simp at hmem
      · simp at hmem

/-- C2, counterexample: the claim says that whenever `Mitigating()` is
false a call to the key store's `ClobberCompromisedKey` is rejected and
the stored key is unchanged.  In a concrete state with mitigation not in
progress (checked disk, stored key `[1]`), `ClobberCompromisedKey [2]`
succeeds and replaces the key: `PolicyKey` carries no mitigation state
at all. -/
theorem c2_clobber_succeeds_without_mitigation :
    DPS.Mitigating
      { key := { key := [1], haveCheckedDisk := true, haveReplaced := false },
        record := PolicyFetchResponse.empty, mitigating := false } = false ∧
    PolicyKey.clobberCompromisedKey
      { key := [1], haveCheckedDisk := true, haveReplaced := false } [2] =
      some (true, { key := [2], haveCheckedDisk := true, haveReplaced := true }) ∧
    ([2] : List Nat) ≠ [1] := by
  decide

/-- C2, amended: the key store itself never checks mitigation —
`ClobberCompromisedKey` requires only has-checked-disk and populated
(`CHECK`-crashing otherwise) and then unconditionally replaces the key;
the only-during-mitigation guarantee is enforced by the caller:
`DevicePolicyService::ValidateAndStoreOwnerKey` never invokes
`ClobberCompromisedKey` when `Mitigating()` is false. -/
theorem c2_clobber_unconditional_and_guarded_by_caller
    (k : PolicyKey) (pub : List Nat)
    (hc : k.haveCheckedDisk = true) (hp : k.isPopulated = true)
    (oks : Bool) (sig : Option (List Nat)) (user : String) (buf : List Nat)
    (st : DPS) (hm : st.Mitigating = false)
    (b : Bool) (st' : DPS) (tr : List DPEvent)
    (hv : validateAndStoreOwnerKey oks sig user buf st = some (b, st', tr)) :
    k.clobberCompromisedKey pub =
      some (true, { key := pub, haveCheckedDisk := k.haveCheckedDisk,
                    haveReplaced := true }) ∧
    DPEvent.clobberKey ∉ tr := by
  constructor
  · unfold PolicyKey.clobberCompromisedKey
    rw [if_pos ⟨hc, hp⟩]
  · have hm' : st.mitigating = false := hm
    unfold validateAndStoreOwnerKey at hv
    rw [hm'] at hv
    simp only [Bool.false_eq_true, if_false] at hv
    split at hv
    · injection hv with h'
      injection h' with _ h''
      injection h'' with _ htr
      subst htr
      simp
    · split at hv
      · injection hv with h'
        injection h' with _ h''
        injection h'' with _ htr
        subst htr
        simp
      · exact vasokFinish_no_clobber _ _ _ _ (by simp) _ _ _ hv

/-- A populated key store (checked disk, key `[1]`), for witnesses. -/
def keyPopulated1 : PolicyKey :=
  { key := [1], haveCheckedDisk := true, haveReplaced := false }

/-- A device-policy-service state with an empty, disk-checked key store
and no mitigation in progress, for witnesses. -/
def dpsEmptyKeyNoMitigation : DPS :=
  { key := { key := [], haveCheckedDisk := true, haveReplaced := false },
    record := PolicyFetchResponse.empty, mitigating := false }

/-- The state `dpsEmptyKeyNoMitigation` reaches after
`ValidateAndStoreOwnerKey` adopts the key `[7]` (signing unavailable, so
the policy record stays wiped). -/
def dpsAfterTakeOwnership : DPS :=
  { key := { key := [7], haveCheckedDisk := true, haveReplaced := false },
    record := PolicyFetchResponse.empty, mitigating := false }

/-- C2, witness for the amended theorem, at a concrete populated key
store and a concrete non-mitigating `ValidateAndStoreOwnerKey` run. -/
theorem c2_clobber_unconditional_and_guarded_by_caller_witness :
    keyPopulated1.haveCheckedDisk = true ∧
    keyPopulated1.isPopulated = true ∧
    dpsEmptyKeyNoMitigation.Mitigating = false ∧
    validateAndStoreOwnerKey true none "u" [7] dpsEmptyKeyNoMitigation =
      some (true, dpsAfterTakeOwnership,
        [DPEvent.populateKey, DPEvent.setRecord PolicyFetchResponse.empty]) ∧
    (keyPopulated1.clobberCompromisedKey [2] =
        some (true, { key := [2],
                      haveCheckedDisk := keyPopulated1.haveCheckedDisk,
                      haveReplaced := true }) ∧
      DPEvent.clobberKey ∉
        [DPEvent.populateKey, DPEvent.setRecord PolicyFetchResponse.empty]) :=
  ⟨rfl, rfl, rfl, rfl,
   c2_clobber_unconditional_and_guarded_by_caller keyPopulated1 [2] rfl rfl
     true none "u" [7] dpsEmptyKeyNoMitigation rfl true dpsAfterTakeOwnership
     [DPEvent.populateKey, DPEvent.setRecord PolicyFetchResponse.empty] rfl⟩

/-- C5: when `ValidateAndStoreOwnerKey` runs with mitigation not in
progress and the key store empty (disk checked, and the generated key
present in the user's slot so the call proceeds), the key store is
populated from the buffer via `PopulateFromBuffer`, the policy record is
reset to the empty record, and only after that reset does
`StoreOwnerProperties` write the new owner policy (a single record
write, followed by the key and policy persists) — or, if signing fails,
nothing further is written. -/
theorem c5_populate_and_reset_policy_before_owner_write
    (st : DPS) (sig : Option (List Nat)) (user : String) (buf : List Nat)
    (hm : st.mitigating = false) (hc : st.key.haveCheckedDisk = true)
    (hp : st.key.isPopulated = false) :
    ∃ st' tail,
      validateAndStoreOwnerKey true sig user buf st =
        some (true, st',
          DPEvent.populateKey ::
            DPEvent.setRecord PolicyFetchResponse.empty :: tail) ∧
      st'.key.key = buf ∧
      (tail = [] ∨
       ∃ r, tail = [DPEvent.setRecord r, DPEvent.persistKey,
                    DPEvent.persistPolicy]) := by
  obtain ⟨⟨kk, kc, kr⟩, rec, mit⟩ := st
  have hm' : mit = false := hm
  subst hm'
  have hc' : kc = true := hc
  subst hc'
  have hk : kk = [] := by
    simpa [PolicyKey.isPopulated] using hp
  subst hk
  cases sig with
  | none => exact ⟨_, [], rfl, rfl, Or.inl rfl⟩
  | some s =>
    exact ⟨_, [DPEvent.setRecord _, DPEvent.persistKey,
               DPEvent.persistPolicy], rfl, rfl, Or.inr ⟨_, rfl⟩⟩

/-- C5, witness: a concrete run from an empty, disk-checked key store
with signing available. -/
theorem c5_populate_and_reset_policy_before_owner_write_witness :
    dpsEmptyKeyNoMitigation.mitigating = false ∧
    dpsEmptyKeyNoMitigation.key.haveCheckedDisk = true ∧
    dpsEmptyKeyNoMitigation.key.isPopulated = false ∧
    (∃ st' tail,
      validateAndStoreOwnerKey true (some [9]) "u" [7]
          dpsEmptyKeyNoMitigation =
        some (true, st',
          DPEvent.populateKey ::
            DPEvent.setRecord PolicyFetchResponse.empty :: tail) ∧
      st'.key.key = [7] ∧
      (tail = [] ∨
       ∃ r, tail = [DPEvent.setRecord r, DPEvent.persistKey,
                    DPEvent.persistPolicy])) :=
  ⟨rfl, rfl, rfl,
   c5_populate_and_reset_policy_before_owner_write dpsEmptyKeyNoMitigation
     (some [9]) "u" [7] rfl rfl rfl⟩

/-- The `recovery_needed` computation, characterized: recovery is needed
iff the on-disk policy file is absent or empty, or the stored record
carries a non-empty request token with the valid-serial-number-missing
bit set. -/
theorem recoveryNeeded_iff (fs : Fs) (rec : PolicyFetchResponse) :
    recoveryNeeded fs rec = true ↔
      ((fs.policyFileSize = none ∨ fs.policyFileSize = some 0) ∨
       (∃ pd, rec.policy_data = some (some pd) ∧
         pd.request_token.getD "" ≠ "" ∧
         pd.valid_serial_number_missing = true)) := by
  obtain ⟨sz, mk⟩ := fs
  obtain ⟨pdata, sigf, npk⟩ := rec
  unfold recoveryNeeded
  dsimp only
  rcases sz with _ | n <;>
    rcases pdata with _ | (_ | pd) <;>
      simp [PolicyData.requestTokenNonempty]

/-- C7: after `Initialize` and after every successful device-policy
`Store`, the serial-recovery marker exists iff the on-disk device-policy
file is absent or empty, or the (newly) stored policy carries a
non-empty enrollment (request) token and its valid-serial-number-missing
field is set; in every other case the marker is deleted.  (The on-disk
file check reads the file as it is at that moment; the deferred persist
has not yet run.) -/
theorem c7_serial_recovery_marker_iff (fs : Fs)
    (rec envl : PolicyFetchResponse) (acc : Bool) (fs' : Fs)
    (rec' : PolicyFetchResponse)
    (h : devicePolicyStore acc envl fs rec = (true, fs', rec')) :
    (fs'.markerExists = true ↔
      ((fs.policyFileSize = none ∨ fs.policyFileSize = some 0) ∨
       (∃ pd, rec'.policy_data = some (some pd) ∧
         pd.request_token.getD "" ≠ "" ∧
         pd.valid_serial_number_missing = true))) ∧
    ((devicePolicyInitialize rec fs).1.markerExists = true ↔
      ((fs.policyFileSize = none ∨ fs.policyFileSize = some 0) ∨
       (∃ pd, rec.policy_data = some (some pd) ∧
         pd.request_token.getD "" ≠ "" ∧
         pd.valid_serial_number_missing = true))) := by
  constructor
  · unfold devicePolicyStore basePolicyServiceStore at h
    cases acc with
    | false => simp at h
    | true =>
      simp only [if_pos rfl, if_true] at h
      injection h with h₁ h₂
      injection h₂ with h₂ h₃
      subst h₂
      subst h₃
      exact recoveryNeeded_iff fs envl
  · exact recoveryNeeded_iff fs rec

/-- A filesystem state with a non-empty on-disk policy file and a stale
marker, for the C7 witness. -/
def fsStaleMarker : Fs := { policyFileSize := some 5, markerExists := true }

/-- C7, witness: storing the empty envelope over a non-empty policy file
deletes the marker. -/
theorem c7_serial_recovery_marker_iff_witness :
    devicePolicyStore true PolicyFetchResponse.empty fsStaleMarker
        PolicyFetchResponse.empty =
      (true, { policyFileSize := some 5, markerExists := false },
       PolicyFetchResponse.empty) ∧
    ((({ policyFileSize := some 5, markerExists := false } : Fs).markerExists
        = true ↔
      ((fsStaleMarker.policyFileSize = none ∨
        fsStaleMarker.policyFileSize = some 0) ∨
       (∃ pd, PolicyFetchResponse.empty.policy_data = some (some pd) ∧
         pd.request_token.getD "" ≠ "" ∧
         pd.valid_serial_number_missing = true))) ∧
     ((devicePolicyInitialize PolicyFetchResponse.empty fsStaleMarker).1.markerExists
        = true ↔
      ((fsStaleMarker.policyFileSize = none ∨
        fsStaleMarker.policyFileSize = some 0) ∨
       (∃ pd, PolicyFetchResponse.empty.policy_data = some (some pd) ∧
         pd.request_token.getD "" ≠ "" ∧
         pd.valid_serial_number_missing = true)))) :=
  ⟨rfl,
   c7_serial_recovery_marker_iff fsStaleMarker PolicyFetchResponse.empty
     PolicyFetchResponse.empty true
     { policyFileSize := some 5, markerExists := false }
     PolicyFetchResponse.empty rfl⟩

/-- C6: for every user, if `StartSession(user)` succeeds, a second
`StartSession(user)` fails with `SessionExists` and leaves the state —
in particular the session table — exactly as it was: the duplicate check
runs before any mutation. -/
theorem c6_second_start_session_fails_session_exists
    (env : SMEnv) (st : SMState) (email : String) (st₁ : SMState)
    (h : startSession env st email = some (st₁, true, none)) :
    startSession env st₁ email =
      some (st₁, false, some StartErr.sessionExists) := by
  unfold startSession at h ⊢
  cases hg : gCharToString email with
  | none => rw [hg] at h; simp at h
  | some s =>
    rw [hg] at h
    simp only [] at h ⊢
    split at h
    · simp at h
    · split at h
      · simp at h
      · split at h
        · simp at h
        · split at h
          · simp at h
          · split at h
            · simp at h
            · split at h
              · simp at h
              · rename_i hc1 hc2 hc3 hc4 hc5 hc6
                injection h with h'
                injection h' with hst h''
                subst hst
                rw [if_neg hc1, if_pos]
                simp [List.lookup]

/-- `StartSession` can only raise the session-started flag, and never
removes or replaces an existing session record. -/
theorem startSession_preserves (env : SMEnv) (st : SMState) (email : String)
    (st' : SMState) (d : Bool) (e : Option StartErr)
    (h : startSession env st email = some (st', d, e)) :
    (st.sessionStarted = true → st'.sessionStarted = true) ∧
    (∀ u sess, st.userSessions.lookup u = some sess →
      st'.userSessions.lookup u = some sess) := by
  unfold startSession at h
  cases hg : gCharToString email with
  | none => rw [hg] at h; simp at h
  | some s =>
    rw [hg] at h
    simp only [] at h
    have triv : st = st' →
        (st.sessionStarted = true → st'.sessionStarted = true) ∧
        (∀ u sess, st.userSessions.lookup u = some sess →
          st'.userSessions.lookup u = some sess) := by
      rintro rfl
      exact ⟨id, fun _ _ hu => hu⟩
    split at h
    · exact triv (congrArg (fun r => r.1) (Option.some.inj h))
    · split at h
      · exact triv (congrArg (fun r => r.1) (Option.some.inj h))
      · split at h
        · exact triv (congrArg (fun r => r.1) (Option.some.inj h))
        · split at h
          · exact triv (congrArg (fun r => r.1) (Option.some.inj h))
          · split at h
            · exact triv (congrArg (fun r => r.1) (Option.some.inj h))
            · split at h
              · exact triv (congrArg (fun r => r.1) (Option.some.inj h))
              · rename_i hc1 hc2 hc3 hc4 hc5 hc6
                injection h with h'
                injection h' with hst h''
                subst hst
                refine ⟨fun _ => rfl, fun u sess hu => ?_⟩
                by_cases hue : u = stringToLowerAscii s
                · exact absurd (by simp [hue ▸ hu]) hc2
                · have hne : (u == stringToLowerAscii s) = false :=
                    beq_eq_false_iff_ne.mpr hue
                  simp only [List.lookup, hne]
                  exact hu

/-- Every session-manager operation preserves a raised session-started
flag and every existing session record. -/
theorem stepSM_preserves (env : SMEnv) (st : SMState) (op : SMOp)
    (st' : SMState) (h : stepSM env st op = some st') :
    (st.sessionStarted = true → st'.sessionStarted = true) ∧
    (∀ u sess, st.userSessions.lookup u = some sess →
      st'.userSessions.lookup u = some sess) := by
  have triv : st = st' →
      (st.sessionStarted = true → st'.sessionStarted = true) ∧
      (∀ u sess, st.userSessions.lookup u = some sess →
        st'.userSessions.lookup u = some sess) := by
    rintro rfl
    exact ⟨id, fun _ _ hu => hu⟩
  cases op with
  | startSession email =>
    simp only [stepSM] at h
    cases hs : startSession env st email with
    | none => rw [hs] at h; simp at h
    | some r =>
      rw [hs] at h
      obtain ⟨a, b, c⟩ := r
      simp only [Option.map_some'] at h
      injection h with h'
      subst h'
      exact startSession_preserves env st email a b c hs
  | stopSession => exact triv (Option.some.inj h)
  | lockScreen =>
    have hl : lockScreen st = st' := Option.some.inj h
    subst hl
    unfold lockScreen
    split
    · exact ⟨id, fun _ _ hu => hu⟩
    · split
      · exact ⟨id, fun _ _ hu => hu⟩
      · split
        · exact ⟨id, fun _ _ hu => hu⟩
        · exact ⟨id, fun _ _ hu => hu⟩
  | handleLockScreenShown => exact triv (Option.some.inj h)
  | handleLockScreenDismissed =>
    have hl : handleLockScreenDismissed st = st' := Option.some.inj h
    subst hl
    exact ⟨id, fun _ _ hu => hu⟩
  | announceSessionStoppingIfNeeded =>
    have hl : announceSessionStoppingIfNeeded st = st' := Option.some.inj h
    subst hl
    unfold announceSessionStoppingIfNeeded
    split
    · exact ⟨id, fun _ _ hu => hu⟩
    · exact ⟨id, fun _ _ hu => hu⟩
  | restartJob pidIsBrowser =>
    simp only [stepSM] at h
    cases pidIsBrowser with
    | false => exact triv (Option.some.inj (by simpa using h))
    | true =>
      simp only [Bool.not_true, Bool.false_eq_true, if_false] at h
      cases hs : startSession env st env.guestUserName with
      | none => rw [hs] at h; simp at h
      | some r =>
        rw [hs] at h
        obtain ⟨a, b, c⟩ := r
        simp only [Option.map_some'] at h
        injection h with h'
        subst h'
        exact startSession_preserves env st env.guestUserName a b c hs

/-- Runs of session-manager operations preserve a raised session-started
flag and every existing session record. -/
theorem runSM_preserves (env : SMEnv) (ops : List SMOp) (st : SMState)
    (st' : SMState) (h : runSM env ops st = some st') :
    (st.sessionStarted = true → st'.sessionStarted = true) ∧
    (∀ u sess, st.userSessions.lookup u = some sess →
      st'.userSessions.lookup u = some sess) := by
  induction ops generalizing st with
  | nil =>
    have : st = st' := Option.some.inj h
    subst this
    exact ⟨id, fun _ _ hu => hu⟩
  | cons op ops ih =>
    simp only [runSM] at h
    cases hstep : stepSM env st op with
    | none => rw [hstep] at h; simp at h
    | some stm =>
      rw [hstep] at h
      simp only [Option.some_bind] at h
      have h1 := stepSM_preserves env st op stm hstep
      have h2 := ih stm h
      exact ⟨fun hs => h2.1 (h1.1 hs),
             fun u sess hu => h2.2 u sess (h1.2 u sess hu)⟩

/-- A successful `StartSession` leaves the session-started flag set. -/
theorem startSession_success_sessionStarted (env : SMEnv) (st : SMState)
    (email : String) (st' : SMState)
    (h : startSession env st email = some (st', true, none)) :
    st'.sessionStarted = true := by
  unfold startSession at h
  cases hg : gCharToString email with
  | none => rw [hg] at h; simp at h
  | some s =>
    rw [hg] at h
    simp only [] at h
    split at h
    · simp at h
    · split at h
      · simp at h
      · split at h
        · simp at h
        · split at h
          · simp at h
          · split at h
            · simp at h
            · split at h
              · simp at h
              · injection h with h'
                injection h' with hst h''
                subst hst
                rfl

/-- C9: once `StartSession` has succeeded, the session-started flag
stays set through every defined sequence of session-manager operations,
so `RetrieveSessionState` never answers `stopped` again; every session
record inserted by that `StartSession` (and any already present) is
still in the table afterwards; and `StopSession` at any such point only
schedules daemon shutdown — it returns the state unchanged. -/
theorem c9_session_started_is_permanent (env : SMEnv) (st : SMState)
    (email : String) (st₁ : SMState)
    (h1 : startSession env st email = some (st₁, true, none))
    (ops : List SMOp) (st₂ : SMState)
    (h2 : runSM env ops st₁ = some st₂) :
    st₂.sessionStarted = true ∧
    retrieveSessionState st₂ ≠ kStopped ∧
    (∀ u sess, st₁.userSessions.lookup u = some sess →
      st₂.userSessions.lookup u = some sess) ∧
    stopSession st₂ = (st₂, [SMAction.scheduleShutdown], true) := by
  have hs1 : st₁.sessionStarted = true :=
    startSession_success_sessionStarted env st email st₁ h1
  have hrun := runSM_preserves env ops st₁ st₂ h2
  have hs2 : st₂.sessionStarted = true := hrun.1 hs1
  refine ⟨hs2, ?_, hrun.2, rfl⟩
  unfold retrieveSessionState
  rw [hs2]
  simp only [Bool.not_true, Bool.false_eq_true, if_false]
  split
  · exact fun hcon => by simp [kStopping, kStopped] at hcon
  · exact fun hcon => by simp [kStarted, kStopped] at hcon

/-- A concrete environment in which every external collaborator
succeeds, for witnesses. -/
def smEnvAllOk : SMEnv :=
  { guestUserName := "$guest",
    sanitizeUserName := fun _ => "hash",
    userPolicyOk := fun _ => true,
    nssSlotOk := fun _ => true,
    ownerLoginOk := fun _ => true,
    emitStartSessionOk := fun _ => true,
    keyMissing := false,
    mitigating := false }

/-- The daemon's state right after construction. -/
def smInitial : SMState :=
  { sessionStarted := false, sessionStopping := false, screenLocked := false,
    userSessions := [], loggedInFlag := false }

/-- The state after `StartSession("A@b")` succeeds from `smInitial`
under `smEnvAllOk`. -/
def smAfterAb : SMState :=
  { sessionStarted := true, sessionStopping := false, screenLocked := false,
    userSessions := [("a@b", { username := "a@b", userhash := "hash",
                               isIncognito := false })],
    loggedInFlag := true }

/-- C6, witness: a concrete successful `StartSession("A@b")` followed by
a second `StartSession("A@b")`, which fails with `SessionExists` and
returns the state unchanged. -/
theorem c6_second_start_session_fails_session_exists_witness :
    startSession smEnvAllOk smInitial "A@b" = some (smAfterAb, true, none) ∧
    startSession smEnvAllOk smAfterAb "A@b" =
      some (smAfterAb, false, some StartErr.sessionExists) :=
  have hfirst : startSession smEnvAllOk smInitial "A@b" =
      some (smAfterAb, true, none) := by decide
  ⟨hfirst,
   c6_second_start_session_fails_session_exists smEnvAllOk smInitial "A@b"
     smAfterAb hfirst⟩

/-- A concrete post-`StartSession` daemon lifetime: a stop request, the
stopping announcement, a screen lock. -/
def smOpsAfterStart : List SMOp :=
  [SMOp.stopSession, SMOp.announceSessionStoppingIfNeeded, SMOp.lockScreen]

/-- The state those operations lead to from `smAfterAb`. -/
def smAfterOps : SMState :=
  { sessionStarted := true, sessionStopping := true, screenLocked := true,
    userSessions := [("a@b", { username := "a@b", userhash := "hash",
                               isIncognito := false })],
    loggedInFlag := true }

/-- C9, witness: the concrete lifetime above keeps the session-started
flag, the session record, and a state-preserving `StopSession`. -/
theorem c9_session_started_is_permanent_witness :
    startSession smEnvAllOk smInitial "A@b" = some (smAfterAb, true, none) ∧
    runSM smEnvAllOk smOpsAfterStart smAfterAb = some smAfterOps ∧
    (smAfterOps.sessionStarted = true ∧
     retrieveSessionState smAfterOps ≠ kStopped ∧
     (∀ u sess, smAfterAb.userSessions.lookup u = some sess →
       smAfterOps.userSessions.lookup u = some sess) ∧
     stopSession smAfterOps = (smAfterOps, [SMAction.scheduleShutdown], true)) :=
  have hfirst : startSession smEnvAllOk smInitial "A@b" =
      some (smAfterAb, true, none) := by decide
  have hrun : runSM smEnvAllOk smOpsAfterStart smAfterAb = some smAfterOps := by
    decide
  ⟨hfirst, hrun,
   c9_session_started_is_permanent smEnvAllOk smInitial "A@b" smAfterAb hfirst
     smOpsAfterStart smAfterOps hrun⟩

/-- The `@`-counting part of `ValidateEmail`: "has a first `@` and no
second `@` after it" is the same as "has exactly one `@`". -/
theorem atCheck_count (cs : List Char) :
    (match cs.indexOf? '@' with
     | none => false
     | some i => !((cs.drop (i + 1)).contains '@')) = true ↔
      cs.count '@' = 1 := by
  induction cs with
  | nil => simp
  | cons c cs ih =>
    rw [List.indexOf?_cons]
    by_cases hc : c = '@'
    · subst hc
      rw [if_pos (by simp)]
      simp only [Nat.zero_add, List.drop_succ_cons, List.drop_zero]
      rw [List.count_cons]
      simp [List.count_eq_zero]
    · have hcb : (c == '@') = false := beq_eq_false_iff_ne.mpr hc
      rw [if_neg (by simp [hcb])]
      cases hidx : cs.indexOf? '@' with
      | none =>
        rw [hidx] at ih
        simp only [Option.map_none']
        rw [List.count_cons]
        simpa [hcb] using ih
      | some i =>
        rw [hidx] at ih
        simp only [Option.map_some']
        simp only [List.drop_succ_cons, Nat.succ_eq_add_one]
        rw [List.count_cons]
        simpa [hcb] using ih

/-- `ValidateEmail` accepts exactly the strings all of whose characters
are legal and which contain exactly one `@`. -/
theorem validateEmail_eq_true_iff (e : String) :
    validateEmail e = true ↔
      (e.toList.all (fun c => kLegalCharacters.contains c) = true ∧
       e.toList.count '@' = 1) := by
  unfold validateEmail
  simp only []
  by_cases hany : (e.toList.any fun c => !kLegalCharacters.contains c) = true
  · rw [if_pos hany]
    constructor
    · intro hfalse
      exact absurd hfalse (by simp)
    · rintro ⟨hall, _⟩
      exfalso
      rw [List.any_eq_true] at hany
      obtain ⟨c, hcmem, hcbad⟩ := hany
      rw [List.all_eq_true] at hall
      have hctrue := hall c hcmem
      rw [hctrue] at hcbad
      exact absurd hcbad (by simp)
  · rw [if_neg hany]
    have hall : e.toList.all (fun c => kLegalCharacters.contains c) = true := by
      rw [List.all_eq_true]
      intro c hcmem
      cases hb : kLegalCharacters.contains c with
      | true => rfl
      | false =>
        exfalso
        apply hany
        rw [List.any_eq_true]
        exact ⟨c, hcmem, by rw [hb]; rfl⟩
    rw [atCheck_count]
    constructor
    · intro hc
      exact ⟨hall, hc⟩
    · rintro ⟨_, hc⟩
      exact hc

/-- C8: `StartSession` reports `InvalidEmail` exactly when the
lowercased name is not one of the two sentinels (the guest user and
`demouser@`, which bypass validation entirely and mark the session
incognito) and fails validation; validation passes exactly when every
character of the lowercased name is in `kLegalCharacters` and it
contains exactly one `@`.  Concretely, `a@b` and `a.b+c-d_e@x.y`
validate, while `a`, `a@b@c`, `a b@c` and the empty string do not. -/
theorem c8_start_session_email_validation (env : SMEnv) (st : SMState)
    (email : String) (st' : SMState) (done : Bool) (err : Option StartErr)
    (s : String) (hg : gCharToString email = some s)
    (h : startSession env st email = some (st', done, err)) :
    (err = some StartErr.invalidEmail ↔
      ((stringToLowerAscii s == env.guestUserName ||
        stringToLowerAscii s == kDemoUser) = false ∧
       validateEmail (stringToLowerAscii s) = false)) ∧
    (validateEmail (stringToLowerAscii s) = true ↔
      ((stringToLowerAscii s).toList.all
          (fun c => kLegalCharacters.contains c) = true ∧
       (stringToLowerAscii s).toList.count '@' = 1)) ∧
    ((stringToLowerAscii s == env.guestUserName ||
      stringToLowerAscii s == kDemoUser) = true →
        err ≠ some StartErr.invalidEmail) ∧
    (done = true →
      st'.userSessions.lookup (stringToLowerAscii s) =
        some { username := stringToLowerAscii s,
               userhash := env.sanitizeUserName (stringToLowerAscii s),
               isIncognito := (stringToLowerAscii s == env.guestUserName ||
                               stringToLowerAscii s == kDemoUser) }) ∧
    (validateEmail "a@b" = true ∧ validateEmail "a.b+c-d_e@x.y" = true ∧
     validateEmail "a" = false ∧ validateEmail "a@b@c" = false ∧
     validateEmail "a b@c" = false ∧ validateEmail "" = false) := by
  have hAD : (err = some StartErr.invalidEmail ↔
      ((stringToLowerAscii s == env.guestUserName ||
        stringToLowerAscii s == kDemoUser) = false ∧
       validateEmail (stringToLowerAscii s) = false)) ∧
      (done = true →
        st'.userSessions.lookup (stringToLowerAscii s) =
          some { username := stringToLowerAscii s,
                 userhash := env.sanitizeUserName (stringToLowerAscii s),
                 isIncognito := (stringToLowerAscii s == env.guestUserName ||
                                 stringToLowerAscii s == kDemoUser) }) := by
    unfold startSession at h
    rw [hg] at h
    simp only [] at h
    split at h
    · rename_i hc1
      injection h with h'
      injection h' with hst h''
      injection h'' with hdone herr
      subst hst
      subst hdone
      subst herr
      rw [Bool.and_eq_true, Bool.not_eq_true', Bool.not_eq_true'] at hc1
      exact ⟨⟨fun _ => hc1, fun _ => rfl⟩, fun hcon => absurd hcon (by simp)⟩
    · rename_i hc1
      have hnot : ¬((stringToLowerAscii s == env.guestUserName ||
            stringToLowerAscii s == kDemoUser) = false ∧
          validateEmail (stringToLowerAscii s) = false) := by
        rintro ⟨h1, h2⟩
        exact hc1 (by simp [h1, h2])
      split at h
      · injection h with h'
        injection h' with hst h''
        injection h'' with hdone herr
        subst hst
        subst hdone
        subst herr
        exact ⟨⟨fun hcon => absurd hcon (by simp), fun hr => absurd hr hnot⟩,
               fun hcon => absurd hcon (by simp)⟩
      · split at h
        · injection h with h'
          injection h' with hst h''
          injection h'' with hdone herr
          subst hst
          subst hdone
          subst herr
          exact ⟨⟨fun hcon => absurd hcon (by simp), fun hr => absurd hr hnot⟩,
                 fun hcon => absurd hcon (by simp)⟩
        · split at h
          · injection h with h'
            injection h' with hst h''
            injection h'' with hdone herr
            subst hst
            subst hdone
            subst herr
            exact ⟨⟨fun hcon => absurd hcon (by simp), fun hr => absurd hr hnot⟩,
                   fun hcon => absurd hcon (by simp)⟩
          · split at h
            · injection h with h'
              injection h' with hst h''
              injection h'' with hdone herr
              subst hst
              subst hdone
              subst herr
              exact ⟨⟨fun hcon => absurd hcon (by simp), fun hr => absurd hr hnot⟩,
                     fun hcon => absurd hcon (by simp)⟩
            · split at h
              · injection h with h'
                injection h' with hst h''
                injection h'' with hdone herr
                subst hst
                subst hdone
                subst herr
                exact ⟨⟨fun hcon => absurd hcon (by simp), fun hr => absurd hr hnot⟩,
                       fun hcon => absurd hcon (by simp)⟩
              · injection h with h'
                injection h' with hst h''
                injection h'' with hdone herr
                subst hst
                subst hdone
                subst herr
                refine ⟨⟨fun hcon => absurd hcon (by simp),
                          fun hr => absurd hr hnot⟩, fun _ => ?_⟩
                simp [List.lookup]
  exact ⟨hAD.1, validateEmail_eq_true_iff _,
         fun hinc hcon => by
           have := (hAD.1.mp hcon).1
           rw [hinc] at this
           exact absurd this (by simp),
         hAD.2, by decide, by decide, by decide, by decide, by decide,
         by decide⟩

/-- C8, witness: the concrete successful `StartSession("A@b")` from the
all-success environment instantiates the validation theorem. -/
theorem c8_start_session_email_validation_witness :
    gCharToString "A@b" = some "A@b" ∧
    startSession smEnvAllOk smInitial "A@b" = some (smAfterAb, true, none) ∧
    ((none : Option StartErr) = some StartErr.invalidEmail ↔
      ((stringToLowerAscii "A@b" == smEnvAllOk.guestUserName ||
        stringToLowerAscii "A@b" == kDemoUser) = false ∧
       validateEmail (stringToLowerAscii "A@b") = false)) ∧
    (validateEmail (stringToLowerAscii "A@b") = true ↔
      ((stringToLowerAscii "A@b").toList.all
          (fun c => kLegalCharacters.contains c) = true ∧
       (stringToLowerAscii "A@b").toList.count '@' = 1)) ∧
    (true = true →
      smAfterAb.userSessions.lookup (stringToLowerAscii "A@b") =
        some { username := stringToLowerAscii "A@b",
               userhash := smEnvAllOk.sanitizeUserName (stringToLowerAscii "A@b"),
               isIncognito := (stringToLowerAscii "A@b" == smEnvAllOk.guestUserName ||
                               stringToLowerAscii "A@b" == kDemoUser) }) :=
  have hg : gCharToString "A@b" = some "A@b" := by decide
  have h : startSession smEnvAllOk smInitial "A@b" =
      some (smAfterAb, true, none) := by decide
  have hmain := c8_start_session_email_validation smEnvAllOk smInitial "A@b"
    smAfterAb true none "A@b" hg h
  ⟨hg, h, hmain.1, hmain.2.1, hmain.2.2.2.1⟩

end LoginManager
